import Mathlib

/-!
Shallow embedding of `src/keys/combined.rs` from the `enr` crate: the
`CombinedKey` / `CombinedPublicKey` composite key types multiplexing the
`secp256k1` and `ed25519` signature schemes, together with generation,
key import with buffer erasure, public-key derivation, record-payload
scheme resolution, encoding, and signature verification.

Byte buffers are modelled as `List Nat` (each entry a byte value).  A Rust
function that mutates its `&mut [u8]` buffer is modelled as returning the
buffer's final contents alongside its result; `Zeroize::zeroize` on a byte
slice becomes `List.replicate buffer.length 0`.

The cryptographic primitives (`secp256k1` crate, `ed25519_dalek` crate, and
the per-scheme `EnrKey`/`EnrPublicKey` impls living in the repository outside
the analysed file) are external collaborators; the spec declares
elliptic-curve math out of scope.  They are modelled from the spec at the
level the spec describes them: fixed-size encodings, validity checks on raw
bytes (length, and for secp256k1 the scalar-range check below the curve
order), and abstract deterministic derivation/signing maps.
-/

namespace Enr

/-- A byte buffer: a list of byte values. -/
abbrev Bytes := List Nat

/-- Big-endian interpretation of a byte buffer as a natural number. -/
def bytesToNat (b : Bytes) : Nat :=
  b.foldl (fun acc x => acc * 256 + x) 0

/-- Big-endian encoding of `v % 2^(8*n)` into exactly `n` bytes. -/
def natToBytesBE : Nat → Nat → Bytes
  | 0, _ => []
  | n + 1, v => natToBytesBE n (v / 256) ++ [v % 256]

/-- The order of the secp256k1 curve group: a raw secret scalar is valid
exactly when it is nonzero and below this bound. -/
def secpCurveOrder : Nat :=
  0xFFFFFFFFFFFFFFFFFFFFFFFFFFFFFFFEBAAEDCE6AF48A03BBFD25E8CD0364141

/-- Modelled from the spec: validity of raw secp256k1 secret-key bytes as
checked by the external primitive `secp256k1::SecretKey::parse_slice`
(not under the analysed file): exactly 32 bytes whose big-endian value is a
scalar in the restricted range `[1, curve order)`. -/
def secpSecretValid (b : Bytes) : Bool :=
  b.length == 32 && decide (0 < bytesToNat b)
    && decide (bytesToNat b < secpCurveOrder)

/-- A secp256k1 secret key: its canonical 32 raw scalar bytes, validated. -/
abbrev SecpSecretKey := {b : Bytes // secpSecretValid b = true}

/-- Modelled from the spec: `secp256k1::SecretKey::parse_slice` (external
primitive), succeeding exactly on valid scalar encodings. -/
def secpSecretParse (b : Bytes) : Option SecpSecretKey :=
  if h : secpSecretValid b = true then some ⟨b, h⟩ else none

/-- Modelled from the spec: `secp256k1::SecretKey::serialize`, the scheme's
canonical raw secret encoding (the validated 32 scalar bytes). -/
def secpSerialize (k : SecpSecretKey) : Bytes := k.val

/-- An ed25519 secret key: any 32 raw bytes. -/
abbrev EdSecretKey := {b : Bytes // b.length = 32}

/-- Modelled from the spec: `ed25519_dalek::SecretKey::from_bytes` (external
primitive) fails exactly when the length is not 32; any 32 bytes is a valid
scheme-B secret. -/
def edSecretFromBytes (b : Bytes) : Option EdSecretKey :=
  if h : b.length = 32 then some ⟨b, h⟩ else none

/-- A secp256k1 public key: a curve point, abstracted to its affine
coordinates (curve membership is external elliptic-curve math, out of
scope of the spec). -/
structure SecpPublicKey where
  x : Nat
  y : Nat
  deriving DecidableEq, Repr

/-- An ed25519 public key: its 32-byte compressed-point encoding (point
decompression is external elliptic-curve math, out of scope of the spec). -/
structure EdPublicKey where
  pk : Bytes
  deriving DecidableEq, Repr

/-- An ed25519 keypair as in `ed25519_dalek::Keypair`: the secret key
together with the stored public key. -/
structure EdKeypair where
  secret : EdSecretKey
  public : EdPublicKey
  deriving DecidableEq

/-- Modelled from the spec: scheme-A public-key derivation
(`secp256k1::SecretKey::public`, elliptic-curve scalar multiplication,
external and out of scope); an abstract deterministic function of the
secret scalar. -/
def secpPublicFromSecret (k : SecpSecretKey) : SecpPublicKey :=
  ⟨bytesToNat k.val, bytesToNat k.val + 1⟩

/-- Modelled from the spec: scheme-B public-key derivation
(`ed25519_dalek::PublicKey::from(&secret)`, external and out of scope); an
abstract deterministic function of the secret bytes. -/
def edPublicFromSecret (s : EdSecretKey) : EdPublicKey :=
  ⟨s.val⟩

/-- Modelled from the spec: the SEC1 compressed encoding of a secp256k1
public key (33 bytes: a parity tag byte 2 or 3 followed by the 32-byte
big-endian x coordinate), as produced by `serialize_compressed`. -/
def secpEncodeCompressed (p : SecpPublicKey) : Bytes :=
  (if p.y % 2 == 1 then 3 else 2) :: natToBytesBE 32 p.x

/-- Modelled from the spec: the SEC1 uncompressed encoding of a secp256k1
public key (65 bytes: tag byte 4 followed by both 32-byte coordinates), as
produced by `serialize`. -/
def secpEncodeUncompressed (p : SecpPublicKey) : Bytes :=
  4 :: (natToBytesBE 32 p.x ++ natToBytesBE 32 p.y)

/-- Modelled from the spec: the ed25519 public-key encoding is its 32
compressed-point bytes; the scheme has no native uncompressed form. -/
def edEncode (p : EdPublicKey) : Bytes := p.pk

/-- Modelled from the spec: scheme-A public-key parsing of a record field's
bytes (compressed form: 33 bytes with tag 2 or 3); the y coordinate
produced by point decompression is external EC math and is abstracted. -/
def secpPublicParse (b : Bytes) : Option SecpPublicKey :=
  if b.length == 33 && (b.head? == some 2 || b.head? == some 3) then
    some ⟨bytesToNat (b.drop 1), bytesToNat (b.drop 1)⟩
  else none

/-- Modelled from the spec: scheme-B public-key parsing of a record field's
bytes (`ed25519_dalek::PublicKey::from_bytes`: exactly 32 bytes; point
decompression abstracted). -/
def edPublicParse (b : Bytes) : Option EdPublicKey :=
  if b.length == 32 then some ⟨b⟩ else none

/-- `rlp::DecoderError` as used by the import and resolution paths: only
its `Custom` constructor with a static message is ever produced here. -/
inductive DecoderError where
  | custom (msg : String)
  deriving DecidableEq, Repr

/-- An ENR record payload: an ordered mapping from field-name strings to
byte strings (`BTreeMap<String, Vec<u8>>`), read via key lookup only. -/
abbrev Content := List (String × Bytes)

/-- `content.get(key)`: look up a reserved field name in the payload. -/
def contentGet (c : Content) (k : String) : Option Bytes :=
  c.lookup k

/-- Modelled from the spec: `secp256k1::SecretKey::enr_to_public` (the
scheme-A half of the resolver, implemented in the repository outside the
analysed file): read scheme A's reserved field name `"secp256k1"` and parse
its bytes as a compressed scheme-A public key; fail otherwise. -/
def secpEnrToPublic (c : Content) : Except DecoderError SecpPublicKey :=
  match contentGet c "secp256k1" with
  | some b =>
    match secpPublicParse b with
    | some pk => Except.ok pk
    | none => Except.error (DecoderError.custom "NoRecognizedScheme")
  | none => Except.error (DecoderError.custom "NoRecognizedScheme")

/-- Modelled from the spec: `ed25519::Keypair::enr_to_public` (the scheme-B
half of the resolver, implemented in the repository outside the analysed
file): read scheme B's reserved field name `"ed25519"` and parse its bytes
as a scheme-B public key; fail otherwise. -/
def edEnrToPublic (c : Content) : Except DecoderError EdPublicKey :=
  match contentGet c "ed25519" with
  | some b =>
    match edPublicParse b with
    | some pk => Except.ok pk
    | none => Except.error (DecoderError.custom "NoRecognizedScheme")
  | none => Except.error (DecoderError.custom "NoRecognizedScheme")

/-- `enum CombinedKey`: the composite secret key, a tagged union over the
secp256k1 secret key and the ed25519 keypair. -/
inductive CombinedKey where
  | Secp256k1 (key : SecpSecretKey)
  | Ed25519 (key : EdKeypair)
  deriving DecidableEq

/-- `enum CombinedPublicKey`: the composite public key, a tagged union over
the two schemes' public keys. -/
inductive CombinedPublicKey where
  | Secp256k1 (pk : SecpPublicKey)
  | Ed25519 (pk : EdPublicKey)
  deriving DecidableEq

/-- `impl From<secp256k1::SecretKey> for CombinedKey`. -/
def combinedFromSecpSecret (k : SecpSecretKey) : CombinedKey :=
  CombinedKey.Secp256k1 k

/-- `impl From<ed25519::SecretKey> for CombinedKey`: promote an Ed25519
secret key into a keypair by deriving its public key. -/
def combinedFromEdSecret (s : EdSecretKey) : CombinedKey :=
  CombinedKey.Ed25519 ⟨s, edPublicFromSecret s⟩

/-- Modelled from the spec: `EnrKey::public` for `ed25519::Keypair`
(implemented in the repository outside the analysed file) returns the
keypair's stored public key. -/
def edKeypairPublic (kp : EdKeypair) : EdPublicKey := kp.public

/-- `CombinedKey::public`: derive the composite public key matching the
active scheme variant. -/
def CombinedKey.public : CombinedKey → CombinedPublicKey
  | CombinedKey.Secp256k1 key => CombinedPublicKey.Secp256k1 (secpPublicFromSecret key)
  | CombinedKey.Ed25519 key => CombinedPublicKey.Ed25519 (edKeypairPublic key)

/-- `CombinedKey::enr_to_public`: try the secp256k1 resolver first, mapping
success into the `Secp256k1` variant; on its failure (`or_else`), try the
ed25519 resolver, mapping success into the `Ed25519` variant; propagate the
second resolver's error when both fail. -/
def CombinedKey.enr_to_public (content : Content) :
    Except DecoderError CombinedPublicKey :=
  match secpEnrToPublic content with
  | Except.ok pk => Except.ok (CombinedPublicKey.Secp256k1 pk)
  | Except.error _ =>
    match edEnrToPublic content with
    | Except.ok pk => Except.ok (CombinedPublicKey.Ed25519 pk)
    | Except.error e => Except.error e

/-- The rejection-sampling loop of `CombinedKey::generate_secp256k1`: the
random source is modelled as a stream `samples` giving the buffer contents
after each `fill_bytes` call, and the unbounded `loop` is given explicit
fuel; `none` means the fuel ran out before a sample parsed.  On success the
buffer is zeroized (`b.zeroize()`) before returning, and the result is the
parsed key paired with the buffer's final contents. -/
def generateSecp256k1Loop (samples : Nat → Bytes) (i : Nat) :
    Nat → Option (CombinedKey × Bytes)
  | 0 => none
  | fuel + 1 =>
    match secpSecretParse (samples i) with
    | some k => some (CombinedKey.Secp256k1 k, List.replicate (samples i).length 0)
    | none => generateSecp256k1Loop samples (i + 1) fuel

/-- `CombinedKey::generate_secp256k1`: rejection sampling starting from the
first sample of the stream. -/
def generate_secp256k1 (samples : Nat → Bytes) (fuel : Nat) :
    Option (CombinedKey × Bytes) :=
  generateSecp256k1Loop samples 0 fuel

/-- `CombinedKey::generate_ed25519`: fill a 32-byte buffer from the random
source (modelled as the buffer contents `randBytes`), build the key from it
via `From<ed25519::SecretKey>`, zeroize the buffer, and return the key
paired with the buffer's final contents.  `none` models the `expect` abort
branch, reachable only if `SecretKey::from_bytes` rejects the buffer. -/
def generate_ed25519 (randBytes : Bytes) : Option (CombinedKey × Bytes) :=
  match edSecretFromBytes randBytes with
  | some s => some (combinedFromEdSecret s, List.replicate randBytes.length 0)
  | none => none

/-- `CombinedKey::secp256k1_from_bytes`: parse the buffer as a secp256k1
secret key; on parse failure the `?` operator returns the error
immediately, leaving the buffer as it was; only on success is the buffer
zeroized before `Ok` is returned.  The result is paired with the buffer's
final contents. -/
def secp256k1_from_bytes (bytes : Bytes) :
    Except DecoderError CombinedKey × Bytes :=
  match secpSecretParse bytes with
  | none => (Except.error (DecoderError.custom "Invalid secp256k1 secret key"), bytes)
  | some k => (Except.ok (combinedFromSecpSecret k), List.replicate bytes.length 0)

/-- `CombinedKey::ed25519_from_bytes`: parse the buffer as an ed25519
secret key; on parse failure the `?` operator returns the error
immediately, leaving the buffer as it was; only on success is the buffer
zeroized before `Ok` is returned.  The result is paired with the buffer's
final contents. -/
def ed25519_from_bytes (bytes : Bytes) :
    Except DecoderError CombinedKey × Bytes :=
  match edSecretFromBytes bytes with
  | none => (Except.error (DecoderError.custom "Invalid ed25519 secret key"), bytes)
  | some s => (Except.ok (combinedFromEdSecret s), List.replicate bytes.length 0)

/-- `CombinedKey::encode`: the scheme's canonical raw secret encoding
(`key.serialize()` for secp256k1, `key.secret.as_bytes()` for ed25519). -/
def CombinedKey.encode : CombinedKey → Bytes
  | CombinedKey.Secp256k1 key => secpSerialize key
  | CombinedKey.Ed25519 key => key.secret.val

/-- A mixing step for the abstract signature model. -/
def mixStep (a x : Nat) : Nat := a * 1099511628211 + x + 1

/-- Fold a byte buffer into the abstract signature model's accumulator. -/
def bytesMix (seed : Nat) (b : Bytes) : Nat := b.foldl mixStep seed

/-- Modelled from the spec: the unique valid scheme-A signature for a
message under a secp256k1 public key (external ECDSA math, out of scope),
abstracted to a deterministic 64-byte function of key and message. -/
def secpSignatureFor (pk : SecpPublicKey) (msg : Bytes) : Bytes :=
  natToBytesBE 64 (bytesMix (mixStep pk.x pk.y) msg)

/-- Modelled from the spec: the unique valid scheme-B signature for a
message under an ed25519 public key (external EdDSA math, out of scope),
abstracted to a deterministic 64-byte function of key and message. -/
def edSignatureFor (pk : EdPublicKey) (msg : Bytes) : Bytes :=
  natToBytesBE 64 (bytesMix (bytesMix 1 pk.pk) msg)

/-- Modelled from the spec: `EnrPublicKey::verify_v4` for secp256k1
(implemented in the repository outside the analysed file): a total boolean
check that returns `false` on signature bytes of the wrong length or format
and otherwise compares against the scheme's valid signature. -/
def secpVerifyV4 (pk : SecpPublicKey) (msg sig : Bytes) : Bool :=
  sig.length == 64 && sig == secpSignatureFor pk msg

/-- Modelled from the spec: `EnrPublicKey::verify_v4` for ed25519
(implemented in the repository outside the analysed file): a total boolean
check that returns `false` on signature bytes of the wrong length or format
and otherwise compares against the scheme's valid signature. -/
def edVerifyV4 (pk : EdPublicKey) (msg sig : Bytes) : Bool :=
  sig.length == 64 && sig == edSignatureFor pk msg

/-- `CombinedPublicKey::verify_v4`: dispatch to the primitive matching the
active scheme. -/
def CombinedPublicKey.verify_v4 : CombinedPublicKey → Bytes → Bytes → Bool
  | CombinedPublicKey.Secp256k1 pk, msg, sig => secpVerifyV4 pk msg sig
  | CombinedPublicKey.Ed25519 pk, msg, sig => edVerifyV4 pk msg sig

/-- `CombinedPublicKey::encode`: compressed form (33 bytes for secp256k1,
32 bytes for ed25519). -/
def CombinedPublicKey.encode : CombinedPublicKey → Bytes
  | CombinedPublicKey.Secp256k1 pk => secpEncodeCompressed pk
  | CombinedPublicKey.Ed25519 pk => edEncode pk

/-- `CombinedPublicKey::encode_uncompressed`: uncompressed form for
secp256k1; ed25519 has no native uncompressed form and returns the same
bytes as `encode`. -/
def CombinedPublicKey.encode_uncompressed : CombinedPublicKey → Bytes
  | CombinedPublicKey.Secp256k1 pk => secpEncodeUncompressed pk
  | CombinedPublicKey.Ed25519 pk => edEncode pk

/-- `CombinedPublicKey::enr_key`: the canonical scheme identifier string
used as the reserved record field name for the active scheme. -/
def CombinedPublicKey.enr_key : CombinedPublicKey → String
  | CombinedPublicKey.Secp256k1 _ => "secp256k1"
  | CombinedPublicKey.Ed25519 _ => "ed25519"

/-- Whether a composite public key carries the same scheme tag as a
composite secret key. -/
def schemeMatches : CombinedKey → CombinedPublicKey → Bool
  | CombinedKey.Secp256k1 _, CombinedPublicKey.Secp256k1 _ => true
  | CombinedKey.Ed25519 _, CombinedPublicKey.Ed25519 _ => true
  | _, _ => false

/-- The keypair-consistency invariant: an Ed25519 composite key stores
exactly the public key derived from its stored secret key. -/
def keypairConsistent : CombinedKey → Prop
  | CombinedKey.Secp256k1 _ => True
  | CombinedKey.Ed25519 kp => kp.public = edPublicFromSecret kp.secret

/-- Whether an `Except` result is a success. -/
def isOkB {ε α : Type} : Except ε α → Bool
  | Except.ok _ => true
  | Except.error _ => false

/-- A concrete valid secp256k1 raw secret: the scalar 1 in 32 bytes. -/
def sampleSecpBytes : Bytes := List.replicate 31 0 ++ [1]

/-- A concrete secp256k1 composite key built from `sampleSecpBytes`. -/
def sampleSecpKey : CombinedKey :=
  CombinedKey.Secp256k1 ⟨sampleSecpBytes, by decide⟩

/-- A concrete 32-byte ed25519 raw secret. -/
def sampleEdBytes : Bytes := List.replicate 32 5

/-- The ed25519 secret key built from `sampleEdBytes`. -/
def sampleEdSecret : EdSecretKey := ⟨sampleEdBytes, by decide⟩

/-- A concrete 33-byte compressed secp256k1 public-key encoding. -/
def sampleSecpPubBytes : Bytes := 2 :: List.replicate 32 7

/-- A concrete 32-byte ed25519 public-key encoding. -/
def sampleEdPubBytes : Bytes := List.replicate 32 9

/-- A payload carrying parseable reserved fields for both schemes. -/
def contentBoth : Content :=
  [("secp256k1", sampleSecpPubBytes), ("ed25519", sampleEdPubBytes)]

/-- A payload carrying only scheme B's reserved field. -/
def contentOnlyEd : Content := [("ed25519", sampleEdPubBytes)]

/-- A random stream whose first sample is the invalid all-zero buffer and
whose later samples are valid, exercising the rejection loop. -/
def c6Stream : Nat → Bytes
  | 0 => List.replicate 32 0
  | _ + 1 => sampleSecpBytes

theorem natToBytesBE_length (n v : Nat) : (natToBytesBE n v).length = n := by
  induction n generalizing v with
  | zero => rfl
  | succ m ih => simp [natToBytesBE, ih]

theorem secpSecretParse_eq_some {b : Bytes} {s : SecpSecretKey}
    (h : secpSecretParse b = some s) :
    s.val = b ∧ secpSecretValid b = true := by
  unfold secpSecretParse at h
  split at h
  · cases h
    exact ⟨rfl, by assumption⟩
  · cases h

theorem edSecretFromBytes_eq_some {b : Bytes} {s : EdSecretKey}
    (h : edSecretFromBytes b = some s) :
    s.val = b ∧ b.length = 32 := by
  unfold edSecretFromBytes at h
  split at h
  · cases h
    exact ⟨rfl, by assumption⟩
  · cases h

theorem secpSecretParse_val (s : SecpSecretKey) :
    secpSecretParse s.val = some s := by
  unfold secpSecretParse
  rw [dif_pos s.property]

theorem edSecretFromBytes_val (s : EdSecretKey) :
    edSecretFromBytes s.val = some s := by
  unfold edSecretFromBytes
  rw [dif_pos s.property]

theorem edEnrToPublic_error {c : Content} {e : DecoderError}
    (h : edEnrToPublic c = Except.error e) :
    e = DecoderError.custom "NoRecognizedScheme" := by
  unfold edEnrToPublic at h
  split at h
  · split at h
    · cases h
    · cases h
      rfl
  · cases h
    rfl

theorem generateSecp256k1Loop_sound (samples : Nat → Bytes) :
    ∀ fuel i k buf, generateSecp256k1Loop samples i fuel = some (k, buf) →
      ∃ j s, i ≤ j ∧ secpSecretParse (samples j) = some s ∧
        k = CombinedKey.Secp256k1 s ∧
        buf = List.replicate (samples j).length 0 ∧
        ∀ m, i ≤ m → m < j → secpSecretParse (samples m) = none := by
  intro fuel
  induction fuel with
  | zero =>
    intro i k buf h
    simp [generateSecp256k1Loop] at h
  | succ f ih =>
    intro i k buf h
    unfold generateSecp256k1Loop at h
    rcases hp : secpSecretParse (samples i) with _ | s
    · rw [hp] at h
      obtain ⟨j, s, hij, hjs, hk, hbuf, hnone⟩ := ih (i + 1) k buf h
      refine ⟨j, s, by omega, hjs, hk, hbuf, ?_⟩
      intro m him hmj
      rcases Nat.eq_or_lt_of_le him with he | hl
      · rw [← he]
        exact hp
      · exact hnone m hl hmj
    · rw [hp] at h
      cases h
      exact ⟨i, s, Nat.le_refl i, hp, rfl, rfl, fun m him hmi => by omega⟩

/-- C1: the claim that the import operations zero-fill the input buffer on
the failure path fails on the code: `secp256k1_from_bytes` and
`ed25519_from_bytes` zeroize only after the `?` early return, so a buffer
rejected with `InvalidKeyEncoding` (wrong length, or out-of-range scalar)
is returned unchanged and not zero-filled. -/
theorem C1_import_failure_leaves_buffer_unzeroized :
    (secp256k1_from_bytes [1]).1 =
      Except.error (DecoderError.custom "Invalid secp256k1 secret key") ∧
    (secp256k1_from_bytes [1]).2 = [1] ∧
    (secp256k1_from_bytes (List.replicate 32 255)).1 =
      Except.error (DecoderError.custom "Invalid secp256k1 secret key") ∧
    (secp256k1_from_bytes (List.replicate 32 255)).2 = List.replicate 32 255 ∧
    (ed25519_from_bytes [1]).1 =
      Except.error (DecoderError.custom "Invalid ed25519 secret key") ∧
    (ed25519_from_bytes [1]).2 = [1] ∧
    ([1] : Bytes) ≠ List.replicate 1 0 ∧
    (List.replicate 32 255 : Bytes) ≠ List.replicate 32 0 ∧
    (secp256k1_from_bytes sampleSecpBytes).2 = List.replicate 32 0 ∧
    (ed25519_from_bytes sampleEdBytes).2 = List.replicate 32 0 := by
  refine ⟨rfl, rfl, rfl, rfl, rfl, rfl, by decide, by decide, rfl, rfl⟩

/-- C7: the `expect` abort branch in `generate_ed25519` is unreachable:
every 32-byte buffer parses as an ed25519 secret key, so generation from a
32-byte random buffer always succeeds. -/
theorem C7_ed25519_expect_unreachable (b : Bytes) (h : b.length = 32) :
    (edSecretFromBytes b).isSome = true ∧
    (generate_ed25519 b).isSome = true := by
  constructor
  · simp [edSecretFromBytes, h]
  · simp [generate_ed25519, edSecretFromBytes, h]

/-- Witness for C7 at the all-zero 32-byte buffer. -/
theorem C7_witness :
    (edSecretFromBytes (List.replicate 32 0)).isSome = true ∧
    (generate_ed25519 (List.replicate 32 0)).isSome = true :=
  C7_ed25519_expect_unreachable (List.replicate 32 0) (by decide)

/-- C8: `CombinedKey::public` is a deterministic pure function (two calls
on the same secret key agree) and yields the composite public key variant
matching the secret key's active scheme. -/
theorem C8_public_deterministic_and_scheme_matching (k : CombinedKey) :
    k.public = k.public ∧ schemeMatches k k.public = true := by
  refine ⟨rfl, ?_⟩
  cases k <;> rfl

/-- C9: for the Ed25519 variant (no native uncompressed form),
`encode_uncompressed` returns exactly the bytes of `encode`; for the
Secp256k1 variant the two are the scheme-canonical SEC1 compressed
(33 bytes, tag 2 or 3) and uncompressed (65 bytes, tag 4) forms. -/
theorem C9_encode_uncompressed_agrees_per_scheme (p : EdPublicKey) (q : SecpPublicKey) :
    CombinedPublicKey.encode_uncompressed (CombinedPublicKey.Ed25519 p) =
      CombinedPublicKey.encode (CombinedPublicKey.Ed25519 p) ∧
    CombinedPublicKey.encode (CombinedPublicKey.Secp256k1 q) =
      secpEncodeCompressed q ∧
    CombinedPublicKey.encode_uncompressed (CombinedPublicKey.Secp256k1 q) =
      secpEncodeUncompressed q ∧
    (CombinedPublicKey.encode (CombinedPublicKey.Secp256k1 q)).length = 33 ∧
    (CombinedPublicKey.encode_uncompressed (CombinedPublicKey.Secp256k1 q)).length = 65 ∧
    (CombinedPublicKey.encode_uncompressed (CombinedPublicKey.Secp256k1 q)).head? =
      some 4 := by
  refine ⟨rfl, rfl, rfl, ?_, ?_, rfl⟩
  · simp [CombinedPublicKey.encode, secpEncodeCompressed, natToBytesBE_length]
  · simp [CombinedPublicKey.encode_uncompressed, secpEncodeUncompressed, natToBytesBE_length]

/-- C10: every Ed25519 composite key reachable through the public
constructors (`From<ed25519::SecretKey>`, `generate_ed25519`,
`ed25519_from_bytes`) stores exactly the public key derived from its
stored secret key. -/
theorem C10_ed25519_keypair_consistent (s : EdSecretKey) (b : Bytes)
    (k k2 : CombinedKey) (buf : Bytes) :
    keypairConsistent (combinedFromEdSecret s) ∧
    (generate_ed25519 b = some (k, buf) → keypairConsistent k) ∧
    ((ed25519_from_bytes b).1 = Except.ok k2 → keypairConsistent k2) := by
  refine ⟨rfl, ?_, ?_⟩
  · intro h
    unfold generate_ed25519 at h
    split at h
    · cases h
      rfl
    · cases h
  · intro h
    unfold ed25519_from_bytes at h
    split at h
    · cases h
    · cases h
      rfl

/-- Witness for C10: a concrete secret, a generated key, and an imported
key, each satisfying the keypair-consistency invariant. -/
theorem C10_witness :
    keypairConsistent (combinedFromEdSecret sampleEdSecret) ∧
    keypairConsistent (combinedFromEdSecret sampleEdSecret) ∧
    keypairConsistent (combinedFromEdSecret sampleEdSecret) := by
  have h := C10_ed25519_keypair_consistent sampleEdSecret sampleEdBytes
    (combinedFromEdSecret sampleEdSecret) (combinedFromEdSecret sampleEdSecret)
    (List.replicate 32 0)
  exact ⟨h.1, h.2.1 rfl, h.2.2 rfl⟩

/-- C2: `enr_to_public` tries secp256k1 first and falls through to ed25519
only on the first resolver's failure: whenever the secp256k1 resolver
succeeds its key is returned as the `Secp256k1` variant (ed25519 ignored,
so a payload parseable under both schemes yields scheme A's key); when it
fails and the ed25519 resolver succeeds, the result is the `Ed25519`
variant; in particular a payload without scheme A's reserved field resolves
to a key whose scheme tag is `"ed25519"`. -/
theorem C2_resolver_order_fixed (c : Content) :
    (∀ pkA, secpEnrToPublic c = Except.ok pkA →
      CombinedKey.enr_to_public c = Except.ok (CombinedPublicKey.Secp256k1 pkA)) ∧
    (∀ e pkB, secpEnrToPublic c = Except.error e → edEnrToPublic c = Except.ok pkB →
      CombinedKey.enr_to_public c = Except.ok (CombinedPublicKey.Ed25519 pkB)) ∧
    (∀ pkB, contentGet c "secp256k1" = none → edEnrToPublic c = Except.ok pkB →
      Except.map CombinedPublicKey.enr_key (CombinedKey.enr_to_public c) =
        Except.ok "ed25519") := by
  refine ⟨?_, ?_, ?_⟩
  · intro pkA hA
    unfold CombinedKey.enr_to_public
    rw [hA]
  · intro e pkB hA hB
    unfold CombinedKey.enr_to_public
    rw [hA, hB]
  · intro pkB hget hB
    have hA : secpEnrToPublic c =
        Except.error (DecoderError.custom "NoRecognizedScheme") := by
      unfold secpEnrToPublic
      rw [hget]
    unfold CombinedKey.enr_to_public
    rw [hA, hB]
    rfl

/-- Witness for C2: on a payload carrying both reserved fields the result
is scheme A's key, and on a payload carrying only scheme B's field the
result's scheme tag is `"ed25519"`. -/
theorem C2_witness :
    CombinedKey.enr_to_public contentBoth =
      Except.ok (CombinedPublicKey.Secp256k1
        ⟨bytesToNat (List.replicate 32 7), bytesToNat (List.replicate 32 7)⟩) ∧
    Except.map CombinedPublicKey.enr_key (CombinedKey.enr_to_public contentOnlyEd) =
      Except.ok "ed25519" := by
  constructor
  · exact (C2_resolver_order_fixed contentBoth).1 _ (by rfl)
  · exact (C2_resolver_order_fixed contentOnlyEd).2.2 ⟨sampleEdPubBytes⟩ (by rfl) (by rfl)

/-- C3: `enr_to_public` fails exactly when both the secp256k1 attempt and
the ed25519 attempt fail, and the error it then reports is the resolver's
no-recognized-scheme error. -/
theorem C3_resolver_fails_iff_both_fail (c : Content) :
    isOkB (CombinedKey.enr_to_public c) =
      (isOkB (secpEnrToPublic c) || isOkB (edEnrToPublic c)) ∧
    (isOkB (CombinedKey.enr_to_public c) = false →
      CombinedKey.enr_to_public c =
        Except.error (DecoderError.custom "NoRecognizedScheme")) := by
  rcases hA : secpEnrToPublic c with eA | pkA
  · rcases hB : edEnrToPublic c with eB | pkB
    · have hc : CombinedKey.enr_to_public c = Except.error eB := by
        unfold CombinedKey.enr_to_public
        rw [hA, hB]
      rw [hc, edEnrToPublic_error hB]
      exact ⟨rfl, fun _ => rfl⟩
    · have hc : CombinedKey.enr_to_public c =
          Except.ok (CombinedPublicKey.Ed25519 pkB) := by
        unfold CombinedKey.enr_to_public
        rw [hA, hB]
      rw [hc]
      exact ⟨rfl, fun h => by cases h⟩
  · have hc : CombinedKey.enr_to_public c =
        Except.ok (CombinedPublicKey.Secp256k1 pkA) := by
      unfold CombinedKey.enr_to_public
      rw [hA]
    rw [hc]
    exact ⟨rfl, fun h => by cases h⟩

/-- Witness for C3: the empty payload carries neither reserved field, so
resolution fails with the no-recognized-scheme error. -/
theorem C3_witness :
    CombinedKey.enr_to_public [] =
      Except.error (DecoderError.custom "NoRecognizedScheme") :=
  (C3_resolver_fails_iff_both_fail []).2 (by rfl)

/-- C5: `verify_v4` is a total boolean function: on every composite public
key, message, and signature it returns `true` or `false` (never an error),
and on signature bytes of the wrong length for the active scheme it
returns `false`. -/
theorem C5_verify_total_and_malformed_false (pk : CombinedPublicKey)
    (msg sig : Bytes) :
    (CombinedPublicKey.verify_v4 pk msg sig = true ∨
      CombinedPublicKey.verify_v4 pk msg sig = false) ∧
    (sig.length ≠ 64 → CombinedPublicKey.verify_v4 pk msg sig = false) := by
  constructor
  · cases hv : CombinedPublicKey.verify_v4 pk msg sig
    · exact Or.inr rfl
    · exact Or.inl rfl
  · intro h
    have hlen : (sig.length == 64) = false := by
      simp [h]
    cases pk <;>
      simp [CombinedPublicKey.verify_v4, secpVerifyV4, edVerifyV4, hlen]

/-- Witness for C5: a 3-byte signature is malformed for ed25519 and
verification returns `false`. -/
theorem C5_witness :
    CombinedPublicKey.verify_v4 (CombinedPublicKey.Ed25519 ⟨List.replicate 32 1⟩)
      [104, 105] [1, 2, 3] = false :=
  (C5_verify_total_and_malformed_false
    (CombinedPublicKey.Ed25519 ⟨List.replicate 32 1⟩) [104, 105] [1, 2, 3]).2
    (by decide)

/-- C4: for both schemes, exporting the raw secret encoding of a generated
key via `CombinedKey::encode` and importing it back through the matching
scheme's import function succeeds and yields a key whose derived public
key equals the original's derived public key. -/
theorem C4_generated_key_roundtrip (samples : Nat → Bytes) (fuel : Nat)
    (rand32 : Bytes) :
    (∀ k buf, generate_secp256k1 samples fuel = some (k, buf) →
      ∃ k2, (secp256k1_from_bytes k.encode).1 = Except.ok k2 ∧
        k2.public = k.public) ∧
    (∀ k buf, generate_ed25519 rand32 = some (k, buf) →
      ∃ k2, (ed25519_from_bytes k.encode).1 = Except.ok k2 ∧
        k2.public = k.public) := by
  constructor
  · intro k buf h
    obtain ⟨j, s, _, _, hk, _, _⟩ :=
      generateSecp256k1Loop_sound samples fuel 0 k buf h
    subst hk
    refine ⟨CombinedKey.Secp256k1 s, ?_, rfl⟩
    show (secp256k1_from_bytes (secpSerialize s)).1 = _
    unfold secp256k1_from_bytes secpSerialize
    rw [secpSecretParse_val s]
    rfl
  · intro k buf h
    unfold generate_ed25519 at h
    rcases hp : edSecretFromBytes rand32 with _ | s
    · rw [hp] at h
      cases h
    · rw [hp] at h
      cases h
      refine ⟨combinedFromEdSecret s, ?_, rfl⟩
      show (ed25519_from_bytes s.val).1 = _
      unfold ed25519_from_bytes
      rw [edSecretFromBytes_val s]

/-- Witness for C4: the round trip at a concretely generated secp256k1 key
and a concretely generated ed25519 key. -/
theorem C4_witness :
    (∃ k2, (secp256k1_from_bytes (CombinedKey.encode sampleSecpKey)).1 =
        Except.ok k2 ∧ k2.public = sampleSecpKey.public) ∧
    (∃ k2, (ed25519_from_bytes (CombinedKey.encode (combinedFromEdSecret sampleEdSecret))).1 =
        Except.ok k2 ∧ k2.public = (combinedFromEdSecret sampleEdSecret).public) := by
  have h := C4_generated_key_roundtrip (fun _ => sampleSecpBytes) 1 sampleEdBytes
  exact ⟨h.1 sampleSecpKey (List.replicate 32 0) (by rfl),
    h.2 (combinedFromEdSecret sampleEdSecret) (List.replicate 32 0) (by rfl)⟩

/-- C6: whenever `generate_secp256k1` returns, its result comes from
rejection sampling — the returned key is the parse of the first sample of
the random stream that is a valid secret scalar, every earlier sample
having failed to parse — and the sampling buffer is zero-filled at
return. -/
theorem C6_generate_secp_rejection_sampling (samples : Nat → Bytes)
    (fuel : Nat) (k : CombinedKey) (buf : Bytes)
    (hlen : ∀ i, (samples i).length = 32)
    (hret : generate_secp256k1 samples fuel = some (k, buf)) :
    buf = List.replicate 32 0 ∧
    ∃ j s, k = CombinedKey.Secp256k1 s ∧
      secpSecretParse (samples j) = some s ∧
      s.val = samples j ∧ secpSecretValid (samples j) = true ∧
      ∀ m, m < j → secpSecretParse (samples m) = none := by
  obtain ⟨j, s, _, hjs, hk, hbuf, hnone⟩ :=
    generateSecp256k1Loop_sound samples fuel 0 k buf hret
  obtain ⟨hval, hvalid⟩ := secpSecretParse_eq_some hjs
  refine ⟨by rw [hbuf, hlen j], j, s, hk, hjs, hval, hvalid, ?_⟩
  intro m hm
  exact hnone m (Nat.zero_le m) hm

/-- Witness for C6: a stream whose first sample (the all-zero buffer) is
rejected and whose second sample is a valid scalar; generation with fuel 2
returns the second sample's key and the zero-filled buffer. -/
theorem C6_witness :
    (List.replicate 32 0 : Bytes) = List.replicate 32 0 ∧
    ∃ j s, sampleSecpKey = CombinedKey.Secp256k1 s ∧
      secpSecretParse (c6Stream j) = some s ∧
      s.val = c6Stream j ∧ secpSecretValid (c6Stream j) = true ∧
      ∀ m, m < j → secpSecretParse (c6Stream m) = none := by
  have hlen : ∀ i, (c6Stream i).length = 32 := fun i =>
    match i with
    | 0 => rfl
    | _ + 1 => rfl
  exact C6_generate_secp_rejection_sampling c6Stream 2 sampleSecpKey
    (List.replicate 32 0) hlen (by rfl)

end Enr
